import Mathlib

/-!
Verification development for the Hindsight-Recall frontend supervisor
(`frontend/main.js`, `frontend/logging.js`, and the extracted
`AuthManager` module).  The JavaScript is shallowly embedded: module-level
mutable variables become an explicit `SupState` record, each supervisor
routine becomes a pure function from state and inputs to a new state plus
an ordered list of observable events (log lines, signals, scheduled
timers), and JS regular-expression tests are embedded as executable string
searches.
-/

namespace Hindsight

/-! ## String helpers (embedding of the JS string / regex operations used) -/

/-- Embedding of `String.prototype.toLowerCase` for the ASCII text involved. -/
def lowerStr (l : List Char) : List Char := l.map Char.toLower

/-- Does `hay` start with `pat`? (helper for substring search). -/
def lsw : List Char → List Char → Bool
  | [], _ => true
  | _ :: _, [] => false
  | p :: ps, c :: cs => p == c && lsw ps cs

/-- Embedding of `String.prototype.includes` / an unanchored case-sensitive
regex test: does `pat` occur as a contiguous substring of `hay`? -/
def subSearch (pat : List Char) : List Char → Bool
  | [] => lsw pat []
  | c :: cs => lsw pat (c :: cs) || subSearch pat cs

/-- Case-insensitive substring test (a JS regex with the `i` flag whose
pattern is a literal, written here in lowercase). -/
def subSearchCI (pat : List Char) (hay : List Char) : Bool :=
  subSearch pat (lowerStr hay)

/-- JS `\w` character class: `[A-Za-z0-9_]`. -/
def isWordChar (c : Char) : Bool :=
  (('a' ≤ c && c ≤ 'z') || ('A' ≤ c && c ≤ 'Z') || ('0' ≤ c && c ≤ '9') || c == '_')

/-- Try to consume `pat` (given lowercase) case-insensitively from the
front of `l`; on success return the remainder. -/
def dropMatchCI : List Char → List Char → Option (List Char)
  | [], l => some l
  | _ :: _, [] => none
  | p :: ps, c :: cs => if p == c.toLower then dropMatchCI ps cs else none

/-- One position of a `\b pat \b` (case-insensitive) regex test: `prev` is
the character just before the position (`none` at the start of the string). -/
def wordHitCI (pat : List Char) (prev : Option Char) (l : List Char) : Bool :=
  (match prev with | none => true | some c => !isWordChar c) &&
  (match dropMatchCI pat l with
   | some rest => match rest with | [] => true | c :: _ => !isWordChar c
   | none => false)

/-- Embedding of a `\b pat \b` regex test with the `i` flag (`pat` written
lowercase): scan every position of `l`. -/
def wordSearchCI (pat : List Char) (prev : Option Char) : List Char → Bool
  | [] => false
  | c :: cs => wordHitCI pat prev (c :: cs) || wordSearchCI pat (some c) cs

/-- Case-insensitive whole-word test over a string, as in `/\berror\b/i`. -/
def testWordCI (pat : String) (s : String) : Bool :=
  wordSearchCI pat.toList none s.toList

/-- Case-insensitive substring test over `String`. -/
def strContainsCI (pat : String) (s : String) : Bool :=
  subSearchCI pat.toList s.toList

/-- Case-sensitive substring test over `String` (a regex without flags). -/
def strContains (pat : String) (s : String) : Bool :=
  subSearch pat.toList s.toList

/-! ## Embedding of `frontend/logging.js` (levelize path, C10) -/

/-- JS `\s` whitespace class, as used by `/^\s*/` and `\s+`. -/
def wsB (c : Char) : Bool := c.isWhitespace

/-- `[A-Z]` character class. -/
def isUpperAZ (c : Char) : Bool := 'A' ≤ c && c ≤ 'Z'

/-- A line whose `trim()` is empty (the `if (!l.trim()) return l;` guard). -/
def lineIsBlank (l : List Char) : Bool := l.all wsB

/-- Embedding of `levelTokenRegex = /^\s*\[[A-Z]+\]/` applied with `.test`. -/
def levelTokenTest (l : List Char) : Bool :=
  match l.dropWhile wsB with
  | '[' :: r =>
      (match r with | x :: _ => isUpperAZ x | [] => false) &&
      (match r.dropWhile isUpperAZ with | ']' :: _ => true | _ => false)
  | _ => false

/-- Consume `[^\]]+\]` style content: split `l` into the (possibly empty)
run before the first `]` and the remainder after that `]`; `none` when no
`]` occurs. -/
def scanGroup : List Char → Option (List Char × List Char)
  | [] => none
  | c :: rest =>
    if c = ']' then some ([], rest)
    else
      match scanGroup rest with
      | some (g, after) => some (c :: g, after)
      | none => none

/-- Embedding of `l.match(/^\[[^\]]+\]\s+\[([^\]]+)\]\s+(.*)$/)`, returning
`(category, rest)` on success.  Both bracket groups must be nonempty and
each `\s+` must consume at least one whitespace character. -/
def catMatch (l : List Char) : Option (List Char × List Char) :=
  match l with
  | '[' :: t =>
    match scanGroup t with
    | some (g1, r1) =>
      if g1 = [] then none
      else if r1.takeWhile wsB = [] then none
      else
        match r1.dropWhile wsB with
        | '[' :: t2 =>
          match scanGroup t2 with
          | some (g2, r2) =>
            if g2 = [] then none
            else if r2.takeWhile wsB = [] then none
            else some (g2, r2.dropWhile wsB)
          | none => none
        | _ => none
    | none => none
  | _ => none

/-- Embedding of `deriveLevelFromCategory(category, line)` from
`frontend/logging.js`. -/
def deriveLevelFromCategory (category line : List Char) : List Char :=
  let lower := lowerStr line
  let cat := lowerStr category
  if subSearch "error".toList cat || subSearch "traceback".toList lower
      || wordSearchCI "error".toList none line then "ERROR".toList
  else if subSearch "warn".toList cat
      || wordSearchCI "degraded".toList none line
      || wordSearchCI "retry".toList none line
      || wordSearchCI "slow".toList none line then "WARNING".toList
  else if subSearch "debug".toList cat then "DEBUG".toList
  else if subSearch "heartbeat".toList cat then "TRACE".toList
  else if subSearch "duplicate".toList cat then "DEBUG".toList
  else if subSearch "capture".toList cat &&
      (subSearchCI "saved".toList line || subSearchCI "wrote".toList line
        || subSearchCI "encrypted".toList line || subSearchCI "ocr done".toList line)
    then "INFO".toList
  else if subSearchCI "success".toList lower || subSearchCI "started".toList lower
      || subSearchCI "listening".toList lower || subSearchCI "unlocked".toList lower
    then "INFO".toList
  else "INFO".toList

/-- Embedding of `l.replace(/^\[[^\]]+\]/, ts => ts + ' [' + lvl + ']')`. -/
def replaceLeading (lvl : List Char) (l : List Char) : List Char :=
  match l with
  | '[' :: t =>
    match scanGroup t with
    | some (g, after) =>
      if g = [] then l
      else '[' :: g ++ ']' :: ' ' :: '[' :: lvl ++ ']' :: after
    | none => l
  | _ => l

/-- The level chosen for an untagged line: category and rest from the
bracket match when it succeeds, else empty category over the whole line
(the `let cat = '', rest = l; if (m) ...` part). -/
def lineLevel (l : List Char) : List Char :=
  let cr := match catMatch l with
            | some p => p
            | none => ([], l)
  deriveLevelFromCategory cr.1 cr.2

/-- The per-line body of the `lines.map` in `levelizeExistingFrontendLog`. -/
def transformLine (l : List Char) : List Char :=
  if lineIsBlank l then l
  else if levelTokenTest l then l
  else replaceLeading (lineLevel l) l

/-- Whether a line reaches the tagging branch (where the JS sets
`dirty = true`). -/
def lineDirty (l : List Char) : Bool :=
  !lineIsBlank l && !levelTokenTest l

/-- Embedding of `content.split(/\r?\n/)` (accumulator holds the current
line reversed). -/
def splitAux (acc : List Char) : List Char → List (List Char)
  | [] => [acc.reverse]
  | '\r' :: '\n' :: rest => acc.reverse :: splitAux [] rest
  | '\n' :: rest => acc.reverse :: splitAux [] rest
  | c :: rest => splitAux (c :: acc) rest

def splitLinesJS (l : List Char) : List (List Char) := splitAux [] l

/-- Embedding of `out.join('\n')`. -/
def joinNL (ls : List (List Char)) : List Char := List.intercalate ['\n'] ls

/-- Embedding of `levelizeExistingFrontendLog` as a transformation of the
log-file content: the file is rewritten (with the mapped lines joined by
`'\n'`) exactly when some line set the `dirty` flag. -/
def levelizeExistingFrontendLog (content : List Char) : List Char :=
  let lines := splitLinesJS content
  if lines.any lineDirty then joinNL (lines.map transformLine) else content

/-! ## Supervisor data model (`frontend/main.js`, module globals at 852-873) -/

/-- The supervisor's module-level mutable variables, gathered into one
record.  Timestamps are milliseconds as `Int` (JS `Date.now()`), `-1`
sentinels are kept as in the source, and nullable variables are `Option`. -/
structure SupState where
  consecutiveDisplayErrors : Nat
  lastHealthRestart : Int
  lastSuccessfulStatus : Int
  userRequestedStop : Bool
  pendingRestartTimer : Bool
  lastLoggedCaptureCount : Int
  lastLoggedError : Option String
  lastLoggedUtc : Option String
  lastHeartbeat : Int
  lastInstanceId : Option String
  lastSequence : Int
  lastStatusUtc : Option String
  lastSequenceTs : Int
  lastServiceInstance : Option String
  consecutiveUnidentified : Nat
  backendSwitchReason : Option String
  systemPaused : Bool
  spawnInFlight : Bool
  needPassGlobal : Bool
  unlockedSuccessfully : Bool
  prefsBackend : String
  deriving DecidableEq, Repr

/-- Initial values of the supervisor globals as declared in the source. -/
def initialSupState : SupState where
  consecutiveDisplayErrors := 0
  lastHealthRestart := 0
  lastSuccessfulStatus := 0
  userRequestedStop := false
  pendingRestartTimer := false
  lastLoggedCaptureCount := -1
  lastLoggedError := none
  lastLoggedUtc := none
  lastHeartbeat := 0
  lastInstanceId := none
  lastSequence := -1
  lastStatusUtc := none
  lastSequenceTs := 0
  lastServiceInstance := none
  consecutiveUnidentified := 0
  backendSwitchReason := none
  systemPaused := false
  spawnInFlight := false
  needPassGlobal := false
  unlockedSuccessfully := false
  prefsBackend := "auto"

/-- A parsed `status.json` record (the `data` object in `pollStatus`).
`Option` encodes a field that is absent or, where the source tests JS
truthiness on strings, absent-or-empty; `sequence`/`capture_count` are
`some` exactly when `typeof x === 'number'` holds. -/
structure StatusData where
  sequence : Option Int
  service_instance_id : Option String
  capture_count : Option Int
  window_title : String
  capture_backend : Option String
  error : Option String
  duplicate : Bool
  last_capture_utc : Option String
  deriving DecidableEq, Repr

/-- JS truthiness of `data.sequence` is false for both a missing field and
the number 0 (the `if (!data.sequence && lastInstanceId)` check). -/
def seqFalsy (d : StatusData) : Bool :=
  match d.sequence with
  | none => true
  | some n => n == 0

/-- Observable effects of the supervisor routines, in program order: log
lines broadcast (tagged by their format string with its dynamic
arguments), process signals, and scheduled timers. -/
inductive Event
  | statusUpdate
  | logHealthDisplayError (n : Nat) (err : String)
  | logBackendSwitch
  | savePrefs
  | internalStop
  | scheduleRestart (delayMs : Nat)
  | logStaleSeq (seq lastSeq : Int)
  | logStaleLegacy
  | logBaselineReset (id : String)
  | logNewInstance (id : String)
  | scanStrays
  | logCapture (count : Int) (title : String)
  | logRegression (oldCount newCount : Int)
  | logDuplicate (title : String)
  | logLegacyOverwrite (utc : String)
  | logError (e : String)
  | logRecovery
  | logHeartbeat
  | logHealthRestart
  | clearRestartTimer
  | setRestartTimer
  | logStall
  | logPaused
  | logResumed
  | sigterm (pid : Int)
  | scheduleSigkill (pid : Int)
  | scheduleResumeStart
  | logStartSuppressed
  | logStartInFlightSkip
  | logStartDeferred
  | logStarted
  | spawnCapture
  | archiveLegacyStatusCheck
  | killStraysScan
  | spawnVerifyTimer
  deriving DecidableEq, Repr

/-- Result of one `pollStatus` invocation: the new supervisor state, the
events in program order, and whether `setTimeout(pollStatus, 2000)` at the
end of the function was reached (the early `return`s inside the `try`
block skip it). -/
structure PollResult where
  st : SupState
  events : List Event
  rescheduled : Bool
  deriving DecidableEq, Repr

/-- `/unable to open display|cannot open display|xopendisplay/i.test(err)` -/
def displayErrPattern (e : String) : Bool :=
  strContainsCI "unable to open display" e || strContainsCI "cannot open display" e
    || strContainsCI "xopendisplay" e

/-- Lines 1131-1159 of `pollStatus`: display-error counting, the
imagegrab/`UnidentifiedImageError` backend adaptation, and the
success-timestamp update.  Runs before the stale-sequence check. -/
def pollHealthCounters (st : SupState) (data : StatusData) (now : Int) :
    SupState × List Event :=
  match data.error with
  | some err =>
    let cde := if displayErrPattern err then st.consecutiveDisplayErrors + 1 else 0
    let ev1 := if displayErrPattern err
      then [Event.logHealthDisplayError (st.consecutiveDisplayErrors + 1) err]
      else []
    if strContains "UnidentifiedImageError" err
        && strContains "imagegrab" (data.capture_backend.getD "") then
      let cu := st.consecutiveUnidentified + 1
      if cu = 3 ∧ st.prefsBackend ≠ "mss" then
        ({st with
            consecutiveDisplayErrors := cde, consecutiveUnidentified := cu,
            prefsBackend := "mss",
            backendSwitchReason := some "imagegrab_unidentifiedimageerror"},
         ev1 ++ [Event.logBackendSwitch, Event.savePrefs, Event.internalStop,
            Event.scheduleRestart 1000])
      else
        ({st with consecutiveDisplayErrors := cde, consecutiveUnidentified := cu}, ev1)
    else if !(strContains "UnidentifiedImageError" err) then
      ({st with consecutiveDisplayErrors := cde, consecutiveUnidentified := 0}, ev1)
    else
      ({st with consecutiveDisplayErrors := cde}, ev1)
  | none =>
    ({st with
        consecutiveDisplayErrors := 0, lastSuccessfulStatus := now,
        consecutiveUnidentified := 0}, [])

/-- Lines 1177-1187: new-instance detection resets the tracking counters
and triggers a stray-process scan. -/
def newInstanceStep (st : SupState) (data : StatusData) : SupState × List Event :=
  match data.service_instance_id with
  | some sid =>
    if some sid ≠ st.lastInstanceId then
      ({st with
          lastInstanceId := some sid, lastLoggedCaptureCount := -1,
          lastLoggedError := none, lastSequence := -1, lastStatusUtc := none},
       [Event.logNewInstance sid, Event.scanStrays])
    else (st, [])
  | none => (st, [])

/-- Lines 1188-1198: capture-count change log with regression anomaly,
else the per-record duplicate log. -/
def captureLogStep (st : SupState) (data : StatusData) : SupState × List Event :=
  match data.capture_count with
  | some cc =>
    if cc ≠ st.lastLoggedCaptureCount then
      let regress :=
        if st.lastInstanceId ≠ none ∧ st.lastLoggedCaptureCount ≠ -1
            ∧ cc < st.lastLoggedCaptureCount - 3
        then [Event.logRegression st.lastLoggedCaptureCount cc] else []
      ({st with lastLoggedCaptureCount := cc},
       Event.logCapture cc data.window_title :: regress)
    else if data.duplicate then (st, [Event.logDuplicate data.window_title])
    else (st, [])
  | none =>
    if data.duplicate then (st, [Event.logDuplicate data.window_title])
    else (st, [])

/-- Lines 1199-1203: record a sequence advance. -/
def seqAdvanceStep (st : SupState) (data : StatusData) (now : Int) : SupState :=
  match data.sequence with
  | some seq =>
    if seq > st.lastSequence then
      let base := {st with lastSequence := seq, lastSequenceTs := now}
      match data.service_instance_id with
      | some sid => {base with lastServiceInstance := some sid}
      | none => base
    else st
  | none => st

/-- Lines 1204-1210: legacy (falsy-sequence) overwrite anomaly. -/
def legacyOverwriteStep (st : SupState) (data : StatusData) : List Event :=
  if seqFalsy data ∧ st.lastInstanceId ≠ none then
    [Event.logLegacyOverwrite (data.last_capture_utc.getD "unknown"), Event.scanStrays]
  else []

/-- Lines 1211-1216: track `last_capture_utc`. -/
def utcStep (st : SupState) (data : StatusData) : SupState :=
  match data.last_capture_utc with
  | some u =>
    let s1 := {st with lastStatusUtc := some u}
    if some u ≠ s1.lastLoggedUtc then {s1 with lastLoggedUtc := some u} else s1
  | none => st

/-- Lines 1217-1221: error-change log (error line or recovery line). -/
def errChangeStep (st : SupState) (data : StatusData) : SupState × List Event :=
  let errNow := data.error
  if errNow ≠ st.lastLoggedError then
    ({st with lastLoggedError := errNow},
     match errNow with
     | some e => [Event.logError e]
     | none => if st.lastLoggedError ≠ none then [Event.logRecovery] else [])
  else (st, [])

/-- Lines 1223-1228: 30-second heartbeat. -/
def heartbeatStep (st : SupState) (now : Int) : SupState × List Event :=
  if now - st.lastHeartbeat > 30000 then
    ({st with lastHeartbeat := now}, [Event.logHeartbeat])
  else (st, [])

/-- Lines 1229-1240: the display-error health restart.  Threshold is 1
before any successful status was ever seen and 3 afterwards, gated by the
user-stop flag, the system pause flag and a 15-second cooldown; on firing
the counter resets and a restart timer is (re)armed. -/
def healthRestartStep (st : SupState) (now : Int) : SupState × List Event :=
  let threshold : Nat := if st.lastSuccessfulStatus = 0 then 1 else 3
  if ¬st.userRequestedStop ∧ ¬st.systemPaused
      ∧ st.consecutiveDisplayErrors ≥ threshold then
    if now - st.lastHealthRestart > 15000 then
      ({st with
          lastHealthRestart := now, consecutiveDisplayErrors := 0,
          pendingRestartTimer := true},
       [Event.logHealthRestart, Event.internalStop]
         ++ (if st.pendingRestartTimer then [Event.clearRestartTimer] else [])
         ++ [Event.setRestartTimer])
    else (st, [])
  else (st, [])

/-- Lines 1177-1240: processing of a record that passed the staleness
checks, followed by the heartbeat and the health-restart evaluation. -/
def pollAccept (st : SupState) (data : StatusData) (now : Int) :
    SupState × List Event :=
  let p1 := newInstanceStep st data
  let p2 := captureLogStep p1.1 data
  let s3 := seqAdvanceStep p2.1 data now
  let e3 := legacyOverwriteStep s3 data
  let s4 := utcStep s3 data
  let p5 := errChangeStep s4 data
  let p6 := heartbeatStep p5.1 now
  let p7 := healthRestartStep p6.1 now
  (p7.1, p1.2 ++ p2.2 ++ e3 ++ p5.2 ++ p6.2 ++ p7.2)

/-- Embedding of `pollStatus` (lines 1125-1243).  `read = none` models a
status file that is absent, unreadable, or malformed JSON: `readFileSync`
or `JSON.parse` throws before any state is touched, the `catch` ignores
the exception, and the next poll is still scheduled.  The early `return`s
of the stale branches skip the final `setTimeout`, so `rescheduled` is
`false` there. -/
def pollStatus (st0 : SupState) (read : Option StatusData) (now : Int) :
    PollResult :=
  match read with
  | none => { st := st0, events := [], rescheduled := true }
  | some data =>
    let h := pollHealthCounters st0 data now
    let st1 := h.1
    let evs1 := Event.statusUpdate :: h.2
    match data.sequence with
    | some seq =>
      let p2 : SupState × List Event :=
        match data.service_instance_id, st1.lastServiceInstance with
        | some sid, some lsi =>
          if sid ≠ lsi then
            ({st1 with lastSequence := -1}, [Event.logBaselineReset sid])
          else (st1, [])
        | _, _ => (st1, [])
      let st2 := p2.1
      if st2.lastSequence ≠ -1 ∧ seq < st2.lastSequence then
        { st := st2,
          events := evs1 ++ p2.2 ++ [Event.logStaleSeq seq st2.lastSequence],
          rescheduled := false }
      else
        let a := pollAccept st2 data now
        { st := a.1, events := evs1 ++ p2.2 ++ a.2, rescheduled := true }
    | none =>
      if st1.lastSequence ≠ -1 then
        { st := st1, events := evs1 ++ [Event.logStaleLegacy], rescheduled := false }
      else
        let a := pollAccept st1 data now
        { st := a.1, events := evs1 ++ a.2, rescheduled := true }

/-! ## Worker lifecycle (`startDetached`, `readPid`, stall detector,
system pause/resume, lines 875-894, 994-1123, 1246-1255, 1956-1967) -/

/-- Embedding of `readPid` (lines 1116-1123): parse the pid file, reject a
falsy value, then check OS process existence with `process.kill(pid, 0)`.
`pidFile` is the parsed number in the pid file (`none` when the file is
missing, unreadable, or not a number) and `alive` is the OS process-
existence oracle. -/
def readPid (pidFile : Option Int) (alive : Int → Bool) : Option Int :=
  match pidFile with
  | none => none
  | some n => if n = 0 then none else if alive n then some n else none

/-- The value returned by `startDetached`. -/
inductive StartAction
  | already (pid : Int)
  | suppressed
  | inFlight
  | deferred
  | started
  | errorSpawn
  deriving DecidableEq, Repr

structure StartResult where
  action : StartAction
  st : SupState
  events : List Event
  deriving DecidableEq, Repr

/-- Embedding of `startDetached` (lines 994-1084).  Guards in source
order: live worker pid, user-stop suppression, in-flight spawn, key not
yet unlocked; then the start path clears any pending restart timer, scans
and kills strays, archives a legacy status file, and spawns.  `spawnOk`
models whether the `spawn` call itself throws; on a throw the source has
already set `spawnInFlight = true` on the line before and returns the
error action without clearing it. -/
def startDetached (st : SupState) (pidFile : Option Int) (alive : Int → Bool)
    (userInitiated : Bool) (spawnOk : Bool) : StartResult :=
  match readPid pidFile alive with
  | some p => { action := .already p, st := st, events := [] }
  | none =>
    if st.userRequestedStop ∧ ¬userInitiated then
      { action := .suppressed, st := st, events := [Event.logStartSuppressed] }
    else if st.spawnInFlight then
      { action := .inFlight, st := st, events := [Event.logStartInFlightSkip] }
    else if st.needPassGlobal ∧ ¬st.unlockedSuccessfully then
      { action := .deferred, st := st, events := [Event.logStartDeferred] }
    else
      let s1 := if userInitiated then {st with userRequestedStop := false} else st
      let s2 := if s1.pendingRestartTimer then {s1 with pendingRestartTimer := false} else s1
      let evClear := if s1.pendingRestartTimer then [Event.clearRestartTimer] else []
      if spawnOk then
        { action := .started, st := {s2 with spawnInFlight := true},
          events := evClear ++ [Event.killStraysScan, Event.archiveLegacyStatusCheck,
            Event.spawnCapture, Event.logStarted, Event.spawnVerifyTimer] }
      else
        { action := .errorSpawn, st := {s2 with spawnInFlight := true},
          events := evClear ++ [Event.killStraysScan, Event.archiveLegacyStatusCheck] }

/-- Embedding of the stall-detector `setInterval` body (lines 1246-1255):
with a live pid, no system pause, an established sequence baseline and no
sequence advance for more than 20 seconds, it stops the worker and
schedules a restart.  It updates none of the supervisor state. -/
def stallTick (st : SupState) (pid : Option Int) (now : Int) :
    SupState × List Event :=
  match pid with
  | none => (st, [])
  | some _ =>
    if ¬st.systemPaused ∧ st.lastSequence ≠ -1 ∧ now - st.lastSequenceTs > 20000 then
      (st, [Event.logStall, Event.internalStop, Event.scheduleRestart 1200])
    else (st, [])

/-- Embedding of `pauseCaptureForSystem` (lines 875-884): on the first
pause event it sets the pause flag, logs, SIGTERMs the worker and
schedules a SIGKILL escalation after a 1-second grace window. -/
def pauseCaptureForSystem (st : SupState) (pid : Option Int) :
    SupState × List Event :=
  if st.systemPaused then (st, [])
  else
    ({st with systemPaused := true},
     Event.logPaused ::
       (match pid with
        | some p => [Event.sigterm p, Event.scheduleSigkill p]
        | none => []))

/-- Embedding of `resumeCaptureAfterSystem` (lines 886-894): clears the
pause flag and, only when no worker pid is alive and the user did not
request a stop, schedules a delayed `startDetached`. -/
def resumeCaptureAfterSystem (st : SupState) (pid : Option Int) :
    SupState × List Event :=
  if ¬st.systemPaused then (st, [])
  else
    ({st with systemPaused := false},
     Event.logResumed ::
       (if pid = none ∧ ¬st.userRequestedStop then [Event.scheduleResumeStart] else []))

/-- The 1200 ms settle-delay callback scheduled by
`resumeCaptureAfterSystem` re-checks both conditions at fire time; this is
whether it actually calls `startDetached`. -/
def resumeTimerFires (st : SupState) (pidAtFire : Option Int) : Bool :=
  pidAtFire == none && !st.userRequestedStop

/-- The `powerMonitor` events wired at lines 1956-1966. -/
inductive PowerEvent
  | lockScreen | unlockScreen | sessionLock | sessionUnlock
  | suspend | resume | shutdown
  deriving DecidableEq, Repr

inductive PowerHandler
  | pauses | resumes
  deriving DecidableEq, Repr

/-- Which handler each `powerMonitor` event is wired to. -/
def powerEventHandler : PowerEvent → PowerHandler
  | .lockScreen => .pauses
  | .unlockScreen => .resumes
  | .sessionLock => .pauses
  | .sessionUnlock => .resumes
  | .suspend => .pauses
  | .resume => .resumes
  | .shutdown => .pauses

/-! ## Unlock server (`startUnlockServer`, lines 1862-1917; the same
request handler appears in `AuthManager.startUnlockServer`) -/

/-- A parsed unlock request; a field is `none` when absent from the JSON
(JS `undefined` compares unequal to any string). -/
structure UnlockReq where
  token : Option String
  action : Option String
  deriving DecidableEq, Repr

/-- Result of the spawned python unwrap helper (`spawnSync`). -/
structure HelperResult where
  error : Bool
  status : Int
  stdout : String
  stderr : String
  deriving DecidableEq, Repr

/-- `(res.stderr || res.stdout || '')`: first truthy (nonempty) string. -/
def helperErrText (r : HelperResult) : String :=
  if r.stderr ≠ "" then r.stderr else if r.stdout ≠ "" then r.stdout else ""

def badJsonResp : String :=
  "\x7b\"status\":\"error\",\"msg\":\"bad_json\"\x7d\n"

/-- The byte-exact reply `JSON.stringify({status:'error',
msg:'invalid_token_or_action'}) + '\n'` sent for a token or action
mismatch. -/
def invalidTokenOrActionResp : String :=
  "\x7b\"status\":\"error\",\"msg\":\"invalid_token_or_action\"\x7d\n"

def okResp (keyB64 : String) : String :=
  "\x7b\"status\":\"ok\",\"key_b64\":\"" ++ keyB64 ++ "\"\x7d\n"

def errMsgResp (msg : String) : String :=
  "\x7b\"status\":\"error\",\"msg\":\"" ++ msg ++ "\"\x7d\n"

/-- Embedding of the per-connection request handler of the unlock server:
`parsed` is the result of `JSON.parse` on the buffered request (`none` =
parse failure), `issued` the one-time token generated at server creation,
`raw` the server mode, `secret` the construction-time secret, and
`helper` the python unwrap subprocess used in passphrase mode. -/
def handleUnlockRequest (issued : String) (raw : Bool) (secret : String)
    (helper : String → HelperResult) (parsed : Option UnlockReq) : String :=
  match parsed with
  | none => badJsonResp
  | some req =>
    if req.token ≠ some issued ∨ req.action ≠ some "get_key" then
      invalidTokenOrActionResp
    else if raw then okResp secret
    else
      let res := helper secret
      if res.status = 0 then okResp res.stdout
      else errMsgResp (if helperErrText res ≠ "" then helperErrText res else "validation_failed")

/-! ## Interactive unlock loop (`promptAndValidateBlocking`,
lines 1673-1797; also `AuthManager.promptAndValidateBlocking`) -/

/-- `/complexity requirements/i.test(err)` -/
def complexityMsgTest (s : String) : Bool :=
  strContainsCI "complexity requirements" s

/-- How one validation attempt of the prompt loop is classified. -/
inductive PromptOutcome
  | helperError
  | success
  | complexityRetry
  | failedRecord
  | failedNoRecord
  deriving DecidableEq, Repr

/-- Embedding of the decision structure of one iteration of
`promptAndValidateBlocking` after the keymgr helper returns (lines
1725-1791): helper spawn errors retry, status 0 succeeds, status 3 or a
complexity message retries without recording, and only exit status 1
invokes the `--record-fail` helper. -/
def promptStep (r : HelperResult) : PromptOutcome :=
  if r.error then .helperError
  else if r.status = 0 then .success
  else
    let err := helperErrText r
    if r.status = 3 ∨ complexityMsgTest err then .complexityRetry
    else if r.status = 1 then .failedRecord
    else .failedNoRecord

/-- Whether the iteration calls the lockout `--record-fail` helper. -/
def recordFailInvoked (r : HelperResult) : Bool :=
  promptStep r == .failedRecord

/-! ## Derived observations used to state the health-restart claim -/

/-- The value of `consecutiveDisplayErrors` after the error block of a
poll has ingested record `d`. -/
def cdeAfter (st : SupState) (d : StatusData) : Nat :=
  match d.error with
  | some e => if displayErrPattern e then st.consecutiveDisplayErrors + 1 else 0
  | none => 0

/-- The value of `lastSuccessfulStatus` after the error block of a poll
has ingested record `d` at time `now`. -/
def lssAfter (st : SupState) (d : StatusData) (now : Int) : Int :=
  match d.error with
  | some _ => st.lastSuccessfulStatus
  | none => now

/-! ## Helper lemmas -/

/-- The error block of a poll never touches the sequence / instance /
capture-count / error-change tracking state nor the restart bookkeeping. -/
theorem pollHealthCounters_frame (st : SupState) (d : StatusData) (now : Int) :
    (pollHealthCounters st d now).1.lastSequence = st.lastSequence
    ∧ (pollHealthCounters st d now).1.lastServiceInstance = st.lastServiceInstance
    ∧ (pollHealthCounters st d now).1.lastInstanceId = st.lastInstanceId
    ∧ (pollHealthCounters st d now).1.lastLoggedCaptureCount = st.lastLoggedCaptureCount
    ∧ (pollHealthCounters st d now).1.lastLoggedError = st.lastLoggedError
    ∧ (pollHealthCounters st d now).1.lastStatusUtc = st.lastStatusUtc
    ∧ (pollHealthCounters st d now).1.lastLoggedUtc = st.lastLoggedUtc
    ∧ (pollHealthCounters st d now).1.userRequestedStop = st.userRequestedStop
    ∧ (pollHealthCounters st d now).1.systemPaused = st.systemPaused
    ∧ (pollHealthCounters st d now).1.lastHealthRestart = st.lastHealthRestart
    ∧ (pollHealthCounters st d now).1.lastHeartbeat = st.lastHeartbeat
    ∧ (pollHealthCounters st d now).1.lastSequenceTs = st.lastSequenceTs
    ∧ (pollHealthCounters st d now).1.pendingRestartTimer = st.pendingRestartTimer := by
  rcases hd : d.error with _ | e
  · simp [pollHealthCounters, hd]
  · simp only [pollHealthCounters, hd]
    repeat' split
    all_goals simp

/-- The error block computes exactly the derived counter values. -/
theorem pollHealthCounters_counters (st : SupState) (d : StatusData) (now : Int) :
    (pollHealthCounters st d now).1.consecutiveDisplayErrors = cdeAfter st d
    ∧ (pollHealthCounters st d now).1.lastSuccessfulStatus = lssAfter st d now := by
  rcases hd : d.error with _ | e
  · simp [pollHealthCounters, cdeAfter, lssAfter, hd]
  · simp only [pollHealthCounters, cdeAfter, lssAfter, hd]
    repeat' split
    all_goals simp

/-- The error block emits only health-adaptation events. -/
theorem pollHealthCounters_events (st : SupState) (d : StatusData) (now : Int)
    (e : Event) (h : e ∈ (pollHealthCounters st d now).2) :
    (∃ n s, e = .logHealthDisplayError n s) ∨ e = .logBackendSwitch
    ∨ e = .savePrefs ∨ e = .internalStop ∨ e = .scheduleRestart 1000 := by
  rcases hd : d.error with _ | er
  · simp [pollHealthCounters, hd] at h
  · simp only [pollHealthCounters, hd] at h
    revert h
    repeat' split
    all_goals (intro h; simp at h; try tauto)
    all_goals (rcases h with h | h <;> simp_all)

/-- Fields untouched by the new-instance block. -/
theorem newInstanceStep_frame (st : SupState) (d : StatusData) :
    (newInstanceStep st d).1.consecutiveDisplayErrors = st.consecutiveDisplayErrors
    ∧ (newInstanceStep st d).1.userRequestedStop = st.userRequestedStop
    ∧ (newInstanceStep st d).1.systemPaused = st.systemPaused
    ∧ (newInstanceStep st d).1.lastHealthRestart = st.lastHealthRestart
    ∧ (newInstanceStep st d).1.lastSuccessfulStatus = st.lastSuccessfulStatus
    ∧ (newInstanceStep st d).1.pendingRestartTimer = st.pendingRestartTimer
    ∧ (newInstanceStep st d).1.lastHeartbeat = st.lastHeartbeat
    ∧ (newInstanceStep st d).1.lastSequenceTs = st.lastSequenceTs := by
  rcases hs : d.service_instance_id with _ | sid
  · simp [newInstanceStep, hs]
  · simp only [newInstanceStep, hs]
    split <;> simp

/-- The new-instance block leaves a `-1` sequence baseline at `-1`. -/
theorem newInstanceStep_lastSequence (st : SupState) (d : StatusData)
    (h : st.lastSequence = -1) : (newInstanceStep st d).1.lastSequence = -1 := by
  rcases hs : d.service_instance_id with _ | sid
  · simpa [newInstanceStep, hs] using h
  · simp only [newInstanceStep, hs]
    split <;> simp [h]

theorem newInstanceStep_events (st : SupState) (d : StatusData)
    (e : Event) (h : e ∈ (newInstanceStep st d).2) :
    (∃ i, e = .logNewInstance i) ∨ e = .scanStrays := by
  rcases hs : d.service_instance_id with _ | sid
  · simp [newInstanceStep, hs] at h
  · simp only [newInstanceStep, hs] at h
    revert h
    split
    all_goals intro h
    all_goals simp at h
    rcases h with rfl | rfl <;> simp

/-- Fields untouched by the capture-count / duplicate block. -/
theorem captureLogStep_frame (st : SupState) (d : StatusData) :
    (captureLogStep st d).1.consecutiveDisplayErrors = st.consecutiveDisplayErrors
    ∧ (captureLogStep st d).1.userRequestedStop = st.userRequestedStop
    ∧ (captureLogStep st d).1.systemPaused = st.systemPaused
    ∧ (captureLogStep st d).1.lastHealthRestart = st.lastHealthRestart
    ∧ (captureLogStep st d).1.lastSuccessfulStatus = st.lastSuccessfulStatus
    ∧ (captureLogStep st d).1.pendingRestartTimer = st.pendingRestartTimer
    ∧ (captureLogStep st d).1.lastHeartbeat = st.lastHeartbeat
    ∧ (captureLogStep st d).1.lastSequence = st.lastSequence
    ∧ (captureLogStep st d).1.lastSequenceTs = st.lastSequenceTs
    ∧ (captureLogStep st d).1.lastServiceInstance = st.lastServiceInstance := by
  rcases hc : d.capture_count with _ | cc
  · simp only [captureLogStep, hc]
    split <;> simp
  · simp only [captureLogStep, hc]
    repeat' split
    all_goals simp

theorem captureLogStep_events (st : SupState) (d : StatusData)
    (e : Event) (h : e ∈ (captureLogStep st d).2) :
    (∃ ct t, e = .logCapture ct t) ∨ (∃ a b, e = .logRegression a b)
    ∨ (∃ t, e = .logDuplicate t) := by
  rcases hc : d.capture_count with _ | cc
  · simp only [captureLogStep, hc] at h
    revert h
    split
    all_goals intro h
    all_goals simp at h
    subst h; simp
  · simp only [captureLogStep, hc] at h
    revert h
    repeat' split
    all_goals intro h
    all_goals simp at h
    all_goals (rcases h with rfl | rfl <;> simp)

/-- Fields untouched by the sequence-advance assignment. -/
theorem seqAdvanceStep_frame (st : SupState) (d : StatusData) (now : Int) :
    (seqAdvanceStep st d now).consecutiveDisplayErrors = st.consecutiveDisplayErrors
    ∧ (seqAdvanceStep st d now).userRequestedStop = st.userRequestedStop
    ∧ (seqAdvanceStep st d now).systemPaused = st.systemPaused
    ∧ (seqAdvanceStep st d now).lastHealthRestart = st.lastHealthRestart
    ∧ (seqAdvanceStep st d now).lastSuccessfulStatus = st.lastSuccessfulStatus
    ∧ (seqAdvanceStep st d now).pendingRestartTimer = st.pendingRestartTimer
    ∧ (seqAdvanceStep st d now).lastHeartbeat = st.lastHeartbeat
    ∧ (seqAdvanceStep st d now).lastInstanceId = st.lastInstanceId := by
  rcases hq : d.sequence with _ | seq
  · simp [seqAdvanceStep, hq]
  · simp only [seqAdvanceStep, hq]
    repeat' split
    all_goals simp

/-- The sequence-advance assignment records a strictly larger sequence. -/
theorem seqAdvanceStep_advances (st : SupState) (d : StatusData) (now : Int)
    (seq : Int) (hq : d.sequence = some seq) (hgt : st.lastSequence < seq) :
    (seqAdvanceStep st d now).lastSequence = seq := by
  simp only [seqAdvanceStep, hq]
  rcases d.service_instance_id with _ | sid <;> simp [hgt]

/-- Fields untouched by the UTC-tracking assignments. -/
theorem utcStep_frame (st : SupState) (d : StatusData) :
    (utcStep st d).consecutiveDisplayErrors = st.consecutiveDisplayErrors
    ∧ (utcStep st d).userRequestedStop = st.userRequestedStop
    ∧ (utcStep st d).systemPaused = st.systemPaused
    ∧ (utcStep st d).lastHealthRestart = st.lastHealthRestart
    ∧ (utcStep st d).lastSuccessfulStatus = st.lastSuccessfulStatus
    ∧ (utcStep st d).pendingRestartTimer = st.pendingRestartTimer
    ∧ (utcStep st d).lastHeartbeat = st.lastHeartbeat
    ∧ (utcStep st d).lastSequence = st.lastSequence
    ∧ (utcStep st d).lastSequenceTs = st.lastSequenceTs := by
  rcases hu : d.last_capture_utc with _ | u
  · simp [utcStep, hu]
  · simp only [utcStep, hu]
    split <;> simp

/-- Fields untouched by the error-change block. -/
theorem errChangeStep_frame (st : SupState) (d : StatusData) :
    (errChangeStep st d).1.consecutiveDisplayErrors = st.consecutiveDisplayErrors
    ∧ (errChangeStep st d).1.userRequestedStop = st.userRequestedStop
    ∧ (errChangeStep st d).1.systemPaused = st.systemPaused
    ∧ (errChangeStep st d).1.lastHealthRestart = st.lastHealthRestart
    ∧ (errChangeStep st d).1.lastSuccessfulStatus = st.lastSuccessfulStatus
    ∧ (errChangeStep st d).1.pendingRestartTimer = st.pendingRestartTimer
    ∧ (errChangeStep st d).1.lastHeartbeat = st.lastHeartbeat
    ∧ (errChangeStep st d).1.lastSequence = st.lastSequence
    ∧ (errChangeStep st d).1.lastSequenceTs = st.lastSequenceTs := by
  simp only [errChangeStep]
  split <;> simp

theorem errChangeStep_events (st : SupState) (d : StatusData)
    (e : Event) (h : e ∈ (errChangeStep st d).2) :
    (∃ s, e = .logError s) ∨ e = .logRecovery := by
  simp only [errChangeStep] at h
  revert h
  repeat' split
  all_goals intro h
  all_goals simp at h
  all_goals (subst h; simp)

theorem legacyOverwriteStep_events (st : SupState) (d : StatusData)
    (e : Event) (h : e ∈ legacyOverwriteStep st d) :
    (∃ u, e = .logLegacyOverwrite u) ∨ e = .scanStrays := by
  simp only [legacyOverwriteStep] at h
  revert h
  split
  all_goals intro h
  all_goals simp at h
  rcases h with rfl | rfl <;> simp

/-- Fields untouched by the heartbeat block. -/
theorem heartbeatStep_frame (st : SupState) (now : Int) :
    (heartbeatStep st now).1.consecutiveDisplayErrors = st.consecutiveDisplayErrors
    ∧ (heartbeatStep st now).1.userRequestedStop = st.userRequestedStop
    ∧ (heartbeatStep st now).1.systemPaused = st.systemPaused
    ∧ (heartbeatStep st now).1.lastHealthRestart = st.lastHealthRestart
    ∧ (heartbeatStep st now).1.lastSuccessfulStatus = st.lastSuccessfulStatus
    ∧ (heartbeatStep st now).1.pendingRestartTimer = st.pendingRestartTimer
    ∧ (heartbeatStep st now).1.lastSequence = st.lastSequence
    ∧ (heartbeatStep st now).1.lastSequenceTs = st.lastSequenceTs := by
  simp only [heartbeatStep]
  split <;> simp

theorem heartbeatStep_events (st : SupState) (now : Int)
    (e : Event) (h : e ∈ (heartbeatStep st now).2) : e = .logHeartbeat := by
  simp only [heartbeatStep] at h
  revert h
  split
  all_goals intro h
  all_goals simp at h
  exact h

/-- The display-error restart block fires exactly under the source's
guard, and resets the counter when it fires. -/
theorem healthRestartStep_spec (st : SupState) (now : Int) :
    (Event.logHealthRestart ∈ (healthRestartStep st now).2 ↔
      (st.userRequestedStop = false ∧ st.systemPaused = false
        ∧ st.consecutiveDisplayErrors ≥ (if st.lastSuccessfulStatus = 0 then 1 else 3)
        ∧ now - st.lastHealthRestart > 15000))
    ∧ (Event.logHealthRestart ∈ (healthRestartStep st now).2 →
        (healthRestartStep st now).1.consecutiveDisplayErrors = 0)
    ∧ (healthRestartStep st now).1.lastSequence = st.lastSequence := by
  simp only [healthRestartStep]
  repeat' split
  all_goals simp_all

theorem healthRestartStep_events (st : SupState) (now : Int)
    (e : Event) (h : e ∈ (healthRestartStep st now).2) :
    e = .logHealthRestart ∨ e = .internalStop ∨ e = .clearRestartTimer
    ∨ e = .setRestartTimer := by
  simp only [healthRestartStep] at h
  revert h
  repeat' split
  all_goals intro h
  all_goals simp at h
  all_goals tauto

/-- Everything a record accepted by the staleness checks can emit. -/
theorem pollAccept_events (st : SupState) (d : StatusData) (now : Int)
    (e : Event) (h : e ∈ (pollAccept st d now).2) :
    (∃ i, e = .logNewInstance i) ∨ e = .scanStrays ∨ (∃ ct t, e = .logCapture ct t)
    ∨ (∃ a b, e = .logRegression a b) ∨ (∃ t, e = .logDuplicate t)
    ∨ (∃ u, e = .logLegacyOverwrite u) ∨ (∃ s, e = .logError s) ∨ e = .logRecovery
    ∨ e = .logHeartbeat ∨ e = .logHealthRestart ∨ e = .internalStop
    ∨ e = .clearRestartTimer ∨ e = .setRestartTimer := by
  simp only [pollAccept, List.mem_append] at h
  rcases h with ((((h | h) | h) | h) | h) | h
  · rcases newInstanceStep_events _ _ _ h with ⟨i, rfl⟩ | rfl <;> simp
  · rcases captureLogStep_events _ _ _ h with ⟨a, b, rfl⟩ | ⟨a, b, rfl⟩ | ⟨t, rfl⟩ <;> simp
  · rcases legacyOverwriteStep_events _ _ _ h with ⟨u, rfl⟩ | rfl <;> simp
  · rcases errChangeStep_events _ _ _ h with ⟨s, rfl⟩ | rfl <;> simp
  · have h2 := heartbeatStep_events _ _ _ h; subst h2; simp
  · rcases healthRestartStep_events _ _ _ h with rfl | rfl | rfl | rfl <;> simp

/-- After the staleness checks reset the baseline to `-1`, an accepted
record with a larger sequence becomes the new baseline. -/
theorem pollAccept_lastSequence (st : SupState) (d : StatusData) (now : Int)
    (seq : Int) (hseq : d.sequence = some seq) (h0 : st.lastSequence = -1)
    (hpos : -1 < seq) : (pollAccept st d now).1.lastSequence = seq := by
  simp only [pollAccept]
  have h1 : (newInstanceStep st d).1.lastSequence = -1 :=
    newInstanceStep_lastSequence st d h0
  have h2 : (captureLogStep (newInstanceStep st d).1 d).1.lastSequence = -1 := by
    rw [(captureLogStep_frame _ d).2.2.2.2.2.2.2.1, h1]
  have h3 : (seqAdvanceStep (captureLogStep (newInstanceStep st d).1 d).1 d now).lastSequence
      = seq :=
    seqAdvanceStep_advances _ d now seq hseq (by rw [h2]; exact hpos)
  rw [(healthRestartStep_spec _ now).2.2, (heartbeatStep_frame _ now).2.2.2.2.2.2.1,
    (errChangeStep_frame _ d).2.2.2.2.2.2.2.1, (utcStep_frame _ d).2.2.2.2.2.2.2.1, h3]

/-! ## Claim theorems -/

/-- Claim C9: when the status file is absent, unreadable, or malformed
JSON (`read = none`: both `readFileSync` and `JSON.parse` throw before any
assignment), `pollStatus` does not throw, leaves every piece of supervisor
tracking state unchanged, emits nothing, and still schedules the next
poll. -/
theorem pollStatus_unreadable_no_change (st : SupState) (now : Int) :
    pollStatus st none now = { st := st, events := [], rescheduled := true } := rfl

/-- Claim C2: a request whose token differs from the issued one-time token
and a request with the correct token but an action other than get_key
produce the same byte-exact error reply, independent of server mode and
secret, so the reply never distinguishes which check failed. -/
theorem unlock_invalid_token_or_action_uniform
    (issued : String) (raw1 raw2 : Bool) (sec1 sec2 : String)
    (help1 help2 : String → HelperResult) (r1 r2 : UnlockReq)
    (hw : r1.token ≠ some issued)
    (hc : r2.token = some issued) (ha : r2.action ≠ some "get_key") :
    handleUnlockRequest issued raw1 sec1 help1 (some r1) = invalidTokenOrActionResp
    ∧ handleUnlockRequest issued raw2 sec2 help2 (some r2) = invalidTokenOrActionResp
    ∧ handleUnlockRequest issued raw1 sec1 help1 (some r1)
        = handleUnlockRequest issued raw2 sec2 help2 (some r2) := by
  refine ⟨?_, ?_, ?_⟩ <;> simp [handleUnlockRequest, hw, hc, ha]

/-- Witness for C2: a never-issued token and a wrong action at concrete
inputs yield the identical reply. -/
theorem unlock_invalid_token_or_action_uniform_witness :
    handleUnlockRequest "tok" false "pw" (fun _ => ⟨false, 0, "", ""⟩)
        (some ⟨some "other", some "get_key"⟩)
      = handleUnlockRequest "tok" true "key" (fun _ => ⟨false, 0, "", ""⟩)
        (some ⟨some "tok", some "rotate"⟩) :=
  (unlock_invalid_token_or_action_uniform "tok" false true "pw" "key"
      (fun _ => ⟨false, 0, "", ""⟩) (fun _ => ⟨false, 0, "", ""⟩)
      ⟨some "other", some "get_key"⟩ ⟨some "tok", some "rotate"⟩
      (by decide) (by decide) (by decide)).2.2

/-- Claim C7: the lockout record-fail helper is invoked exactly for a
genuine invalid-secret outcome: any invocation implies helper exit status
1; a complexity rejection (exit status 3 or a complexity-requirements
message, which the loop checks first) never invokes it; and status 1
without a complexity message (and without a spawn error) always invokes
it. -/
theorem recordFail_iff_genuine_invalid :
    (∀ r : HelperResult, recordFailInvoked r = true → r.status = 1)
    ∧ (∀ r : HelperResult,
        r.status = 3 ∨ complexityMsgTest (helperErrText r) = true →
        recordFailInvoked r = false)
    ∧ (∀ r : HelperResult, r.error = false → r.status = 1 →
        complexityMsgTest (helperErrText r) = false →
        recordFailInvoked r = true) := by
  refine ⟨?_, ?_, ?_⟩
  · intro r h
    simp only [recordFailInvoked, promptStep] at h
    revert h
    repeat' split
    all_goals simp_all
  · intro r h
    simp only [recordFailInvoked, promptStep]
    repeat' split
    all_goals simp_all
  · intro r he h1 hcx
    simp only [recordFailInvoked, promptStep, he, h1, hcx]
    norm_num

/-- Witness for C7: a status-1 invalid passphrase records a failure, a
status-3 complexity rejection does not. -/
theorem recordFail_iff_genuine_invalid_witness :
    recordFailInvoked ⟨false, 1, "", "invalid passphrase"⟩ = true
    ∧ recordFailInvoked ⟨false, 3, "", "does not meet complexity requirements"⟩ = false :=
  ⟨recordFail_iff_genuine_invalid.2.2 ⟨false, 1, "", "invalid passphrase"⟩
      (by decide) (by decide) (by decide),
   recordFail_iff_genuine_invalid.2.1 ⟨false, 3, "", "does not meet complexity requirements"⟩
      (Or.inl (by decide))⟩

/-- Counterexample to claim C5 as stated: with the worker pid alive, a
sequence baseline established, no pause, and the sequence stalled for more
than 20 seconds, two consecutive detector ticks only 5 seconds apart (well
inside any cooldown; the display-error path uses 15 seconds) each issue a
full stop-and-restart cycle — not exactly one cycle per cooldown period. -/
theorem stallTick_no_cooldown_double_restart :
    (stallTick {initialSupState with lastSequence := 5, lastSequenceTs := 0}
        (some 7) 25000).2
      = [Event.logStall, Event.internalStop, Event.scheduleRestart 1200]
    ∧ (stallTick (stallTick {initialSupState with lastSequence := 5, lastSequenceTs := 0}
          (some 7) 25000).1 (some 7) 30000).2
      = [Event.logStall, Event.internalStop, Event.scheduleRestart 1200] := by
  decide

/-- Claim C5 (amended): every stall-detector tick that sees a live pid, no
system pause, an established baseline, and more than 20 seconds without a
sequence advance issues a stop-and-restart cycle, and the tick records no
cooldown state whatsoever (the state is returned unchanged) — so during a
persistent stall each 5-second tick triggers another restart. -/
theorem stallTick_fires_iff_stalled (st : SupState) (pid : Option Int) (now : Int) :
    (stallTick st pid now).1 = st
    ∧ ((stallTick st pid now).2
          = [Event.logStall, Event.internalStop, Event.scheduleRestart 1200]
        ↔ (pid ≠ none ∧ st.systemPaused = false ∧ st.lastSequence ≠ -1
            ∧ now - st.lastSequenceTs > 20000)) := by
  rcases pid with _ | p
  · simp [stallTick]
  · simp only [stallTick]
    split
    all_goals simp_all

/-- Witness for C5 (amended): a concrete stalled tick fires. -/
theorem stallTick_fires_iff_stalled_witness :
    (stallTick {initialSupState with lastSequence := 5, lastSequenceTs := 0}
        (some 7) 25000).2
      = [Event.logStall, Event.internalStop, Event.scheduleRestart 1200] :=
  (stallTick_fires_iff_stalled {initialSupState with lastSequence := 5, lastSequenceTs := 0}
      (some 7) 25000).2.mpr (by refine ⟨by decide, by decide, by decide, by decide⟩)

/-- Claim C8: system lock, session-lock, suspend and shutdown events are
wired to `pauseCaptureForSystem`, which on a live worker pid issues
SIGTERM followed by a scheduled SIGKILL escalation and never changes the
user-stop flag; unlock, session-unlock and resume events are wired to
`resumeCaptureAfterSystem`, which schedules the delayed restart only when
no worker pid is alive and no user stop is in effect, and whose settle
timer re-checks both conditions at fire time. -/
theorem pause_resume_system_events :
    (∀ st pid, (pauseCaptureForSystem st pid).1.userRequestedStop
        = st.userRequestedStop)
    ∧ (∀ (st : SupState) (p : Int), st.systemPaused = false →
        (pauseCaptureForSystem st (some p)).2
            = [Event.logPaused, Event.sigterm p, Event.scheduleSigkill p]
          ∧ (pauseCaptureForSystem st (some p)).1.systemPaused = true)
    ∧ (∀ st pid, Event.scheduleResumeStart ∈ (resumeCaptureAfterSystem st pid).2 →
        pid = none ∧ st.userRequestedStop = false)
    ∧ (∀ st pidAtFire, resumeTimerFires st pidAtFire = true →
        pidAtFire = none ∧ st.userRequestedStop = false)
    ∧ powerEventHandler .lockScreen = .pauses
    ∧ powerEventHandler .sessionLock = .pauses
    ∧ powerEventHandler .suspend = .pauses
    ∧ powerEventHandler .shutdown = .pauses
    ∧ powerEventHandler .unlockScreen = .resumes
    ∧ powerEventHandler .sessionUnlock = .resumes
    ∧ powerEventHandler .resume = .resumes := by
  refine ⟨?_, ?_, ?_, ?_, rfl, rfl, rfl, rfl, rfl, rfl, rfl⟩
  · intro st pid
    simp only [pauseCaptureForSystem]
    split <;> simp
  · intro st p hp
    simp [pauseCaptureForSystem, hp]
  · intro st pid h
    simp only [resumeCaptureAfterSystem] at h
    revert h
    repeat' split
    all_goals intro h
    all_goals simp_all
  · intro st pidAtFire h
    simp only [resumeTimerFires, Bool.and_eq_true, beq_iff_eq,
      Bool.not_eq_eq_eq_not, Bool.not_true] at h
    tauto

/-- Witness for C8: a concrete pause with a live pid emits SIGTERM and the
scheduled SIGKILL while leaving the user-stop flag alone, and a concrete
resume with no live pid schedules the restart. -/
theorem pause_resume_system_events_witness :
    (pauseCaptureForSystem {initialSupState with userRequestedStop := true} (some 9)).2
      = [Event.logPaused, Event.sigterm 9, Event.scheduleSigkill 9] :=
  (pause_resume_system_events.2.1 {initialSupState with userRequestedStop := true}
      9 (by decide)).1

/-- Counterexample to claim C3 as stated: with a passphrase required and
the key not yet unlocked but a live worker pid, `startDetached` returns
the already action, not the deferred action — the live-pid guard precedes
the lock guard, so the claim's first conjunct fails. -/
theorem startDetached_locked_with_live_pid_returns_already :
    (startDetached
        {initialSupState with needPassGlobal := true, unlockedSuccessfully := false}
        (some 42) (fun p => p == 42) false true).action
      = StartAction.already 42
    ∧ StartAction.already 42 ≠ StartAction.deferred
    ∧ ({initialSupState with
          needPassGlobal := true, unlockedSuccessfully := false} : SupState).needPassGlobal
        = true
    ∧ ({initialSupState with
          needPassGlobal := true, unlockedSuccessfully := false} : SupState).unlockedSuccessfully
        = false := by
  decide

/-- Claim C3 (amended): the `startDetached` guards are evaluated in the
source order live-pid, user-stop suppression, in-flight spawn, locked key,
each returning without spawning: a live worker pid (liveness established
by signalling the pid read from the pid file, not by the recorded value
alone) yields the already action; otherwise an active user stop on a
non-user-initiated call yields suppressed; otherwise an in-flight spawn
yields in-flight; otherwise a required-but-locked key yields deferred.
None of these branches changes the supervisor state or spawns anything. -/
theorem startDetached_guard_precedence :
    (∀ (st : SupState) (pf : Option Int) (alive : Int → Bool) (ui ok : Bool) (p : Int),
      readPid pf alive = some p →
      startDetached st pf alive ui ok = { action := .already p, st := st, events := [] })
    ∧ (∀ (st : SupState) (pf : Option Int) (alive : Int → Bool) (ok : Bool),
      readPid pf alive = none → st.userRequestedStop = true →
      startDetached st pf alive false ok
        = { action := .suppressed, st := st, events := [Event.logStartSuppressed] })
    ∧ (∀ (st : SupState) (pf : Option Int) (alive : Int → Bool) (ui ok : Bool),
      readPid pf alive = none → (st.userRequestedStop = true → ui = true) →
      st.spawnInFlight = true →
      startDetached st pf alive ui ok
        = { action := .inFlight, st := st, events := [Event.logStartInFlightSkip] })
    ∧ (∀ (st : SupState) (pf : Option Int) (alive : Int → Bool) (ui ok : Bool),
      readPid pf alive = none → (st.userRequestedStop = true → ui = true) →
      st.spawnInFlight = false → st.needPassGlobal = true →
      st.unlockedSuccessfully = false →
      startDetached st pf alive ui ok
        = { action := .deferred, st := st, events := [Event.logStartDeferred] })
    ∧ (∀ (pf : Option Int) (alive : Int → Bool) (p : Int),
      readPid pf alive = some p → alive p = true) := by
  refine ⟨?_, ?_, ?_, ?_, ?_⟩
  · intro st pf alive ui ok p h
    simp [startDetached, h]
  · intro st pf alive ok h hstop
    simp [startDetached, h, hstop]
  · intro st pf alive ui ok h hni hflight
    have hcase : ¬(st.userRequestedStop = true ∧ ¬ui = true) := by
      intro hcon; exact hcon.2 (hni hcon.1)
    simp only [startDetached, h]
    rw [if_neg hcase, if_pos hflight]
  · intro st pf alive ui ok h hni hflight hneed hunlock
    have hcase : ¬(st.userRequestedStop = true ∧ ¬ui = true) := by
      intro hcon; exact hcon.2 (hni hcon.1)
    simp only [startDetached, h]
    rw [if_neg hcase, if_neg (by simp [hflight]), if_pos (by simp [hneed, hunlock])]
  · intro pf alive p h
    rcases pf with _ | n
    · simp [readPid] at h
    · simp only [readPid] at h
      revert h
      repeat' split
      all_goals intro h
      all_goals simp_all

/-- Witness for C3 (amended): each guard fires at a concrete input. -/
theorem startDetached_guard_precedence_witness :
    (startDetached initialSupState (some 42) (fun p => p == 42) false true).action
      = StartAction.already 42
    ∧ (startDetached {initialSupState with userRequestedStop := true}
        none (fun _ => false) false true).action = StartAction.suppressed
    ∧ (startDetached {initialSupState with spawnInFlight := true}
        none (fun _ => false) false true).action = StartAction.inFlight
    ∧ (startDetached {initialSupState with needPassGlobal := true}
        none (fun _ => false) false true).action = StartAction.deferred := by
  refine ⟨?_, ?_, ?_, ?_⟩
  · rw [startDetached_guard_precedence.1 initialSupState (some 42)
      (fun p => p == 42) false true 42 (by decide)]
  · rw [startDetached_guard_precedence.2.1 {initialSupState with userRequestedStop := true}
      none (fun _ => false) true rfl rfl]
  · rw [startDetached_guard_precedence.2.2.1 {initialSupState with spawnInFlight := true}
      none (fun _ => false) false true rfl (by simp [initialSupState]) rfl]
  · rw [startDetached_guard_precedence.2.2.2.1 {initialSupState with needPassGlobal := true}
      none (fun _ => false) false true rfl (by simp [initialSupState]) rfl rfl rfl]

/-- Counterexample to claim C1 as stated: a record with a strictly lower
sequence for the same instance is dropped with the stale diagnostic (the
events are exactly the status broadcast plus the stale log), yet the
supervisor state IS updated — the error block running before the stale
check resets `consecutiveDisplayErrors` from 5 to 0 and refreshes
`lastSuccessfulStatus` — contradicting the claim's parenthetical that no
supervisor state is updated on a drop. -/
theorem pollStatus_stale_drop_updates_health_counters :
    (pollStatus
        {initialSupState with
          consecutiveDisplayErrors := 5, lastSequence := 3,
          lastServiceInstance := some "A", lastInstanceId := some "A"}
        (some { sequence := some 2, service_instance_id := some "A",
                capture_count := some 1, window_title := "w",
                capture_backend := some "mss", error := none,
                duplicate := false, last_capture_utc := none }) 1000).events
      = [Event.statusUpdate, Event.logStaleSeq 2 3]
    ∧ (pollStatus
        {initialSupState with
          consecutiveDisplayErrors := 5, lastSequence := 3,
          lastServiceInstance := some "A", lastInstanceId := some "A"}
        (some { sequence := some 2, service_instance_id := some "A",
                capture_count := some 1, window_title := "w",
                capture_backend := some "mss", error := none,
                duplicate := false, last_capture_utc := none }) 1000).st
      ≠ {initialSupState with
          consecutiveDisplayErrors := 5, lastSequence := 3,
          lastServiceInstance := some "A", lastInstanceId := some "A"} := by
  decide

/-- Claim C1 (amended): on every polled record carrying a numeric
sequence, with a baseline established and the record's instance matching
the last seen one, a strictly lower sequence is dropped with the stale
diagnostic: the poll performs only the error-block bookkeeping (which runs
before the stale check and may change the display-error counters) and the
sequence / instance / capture-count / error-change tracking state is left
unchanged with no further record processing.  A record whose instance id
differs from the last seen instance resets the baseline and is accepted,
its sequence becoming the new baseline.  A record lacking a numeric
sequence after a baseline was established is likewise dropped with the
legacy-status diagnostic, again changing no tracking state. -/
theorem pollStatus_stale_sequence_handling :
    (∀ (st : SupState) (d : StatusData) (now seq : Int),
      d.sequence = some seq →
      (∀ sid lsi, d.service_instance_id = some sid →
        st.lastServiceInstance = some lsi → sid = lsi) →
      st.lastSequence ≠ -1 → seq < st.lastSequence →
      pollStatus st (some d) now
        = { st := (pollHealthCounters st d now).1,
            events := Event.statusUpdate :: (pollHealthCounters st d now).2
              ++ [Event.logStaleSeq seq st.lastSequence],
            rescheduled := false }
      ∧ (pollStatus st (some d) now).st.lastSequence = st.lastSequence
      ∧ (pollStatus st (some d) now).st.lastInstanceId = st.lastInstanceId
      ∧ (pollStatus st (some d) now).st.lastServiceInstance = st.lastServiceInstance
      ∧ (pollStatus st (some d) now).st.lastLoggedCaptureCount = st.lastLoggedCaptureCount
      ∧ (pollStatus st (some d) now).st.lastLoggedError = st.lastLoggedError
      ∧ (pollStatus st (some d) now).st.lastStatusUtc = st.lastStatusUtc)
    ∧ (∀ (st : SupState) (d : StatusData) (now seq : Int) (sid lsi : String),
      d.sequence = some seq → d.service_instance_id = some sid →
      st.lastServiceInstance = some lsi → sid ≠ lsi →
      (pollStatus st (some d) now).rescheduled = true
      ∧ Event.logBaselineReset sid ∈ (pollStatus st (some d) now).events
      ∧ (∀ a b, Event.logStaleSeq a b ∉ (pollStatus st (some d) now).events)
      ∧ (-1 < seq → (pollStatus st (some d) now).st.lastSequence = seq))
    ∧ (∀ (st : SupState) (d : StatusData) (now : Int),
      d.sequence = none → st.lastSequence ≠ -1 →
      pollStatus st (some d) now
        = { st := (pollHealthCounters st d now).1,
            events := Event.statusUpdate :: (pollHealthCounters st d now).2
              ++ [Event.logStaleLegacy],
            rescheduled := false }
      ∧ (pollStatus st (some d) now).st.lastSequence = st.lastSequence
      ∧ (pollStatus st (some d) now).st.lastInstanceId = st.lastInstanceId
      ∧ (pollStatus st (some d) now).st.lastServiceInstance = st.lastServiceInstance
      ∧ (pollStatus st (some d) now).st.lastLoggedCaptureCount = st.lastLoggedCaptureCount
      ∧ (pollStatus st (some d) now).st.lastLoggedError = st.lastLoggedError
      ∧ (pollStatus st (some d) now).st.lastStatusUtc = st.lastStatusUtc) := by
  refine ⟨?_, ?_, ?_⟩
  · intro st d now seq hseq hsame hne hlt
    obtain ⟨f1, f2, f3, f4, f5, f6, f7, f8, f9, f10, f11, f12, f13⟩ :=
      pollHealthCounters_frame st d now
    have hmain : pollStatus st (some d) now
        = { st := (pollHealthCounters st d now).1,
            events := Event.statusUpdate :: (pollHealthCounters st d now).2
              ++ [Event.logStaleSeq seq st.lastSequence],
            rescheduled := false } := by
      simp only [pollStatus, hseq, f2]
      rcases hsid : d.service_instance_id with _ | sid <;>
        rcases hlsi : st.lastServiceInstance with _ | lsi
      · simp [hsid, hlsi, f1, hne, hlt]
      · simp [hsid, hlsi, f1, hne, hlt]
      · simp [hsid, hlsi, f1, hne, hlt]
      · simp [hsid, hlsi, f1, hne, hlt, hsame sid lsi hsid hlsi]
    rw [hmain]
    exact ⟨rfl, f1, f3, f2, f4, f5, f6⟩
  · intro st d now seq sid lsi hseq hsid hlsi hdiff
    obtain ⟨f1, f2, f3, f4, f5, f6, f7, f8, f9, f10, f11, f12, f13⟩ :=
      pollHealthCounters_frame st d now
    have hmain : pollStatus st (some d) now
        = { st := (pollAccept {(pollHealthCounters st d now).1 with lastSequence := -1} d now).1,
            events := (Event.statusUpdate :: (pollHealthCounters st d now).2)
              ++ [Event.logBaselineReset sid]
              ++ (pollAccept {(pollHealthCounters st d now).1 with lastSequence := -1} d now).2,
            rescheduled := true } := by
      simp only [pollStatus, hseq, f2]
      simp [hsid, hlsi, hdiff]
    refine ⟨by rw [hmain], by rw [hmain]; simp, ?_, ?_⟩
    · intro a b hmem
      rw [hmain] at hmem
      simp only [List.mem_append, List.mem_cons, List.not_mem_nil, or_false] at hmem
      rcases hmem with ((h | h) | h) | h
      · exact Event.noConfusion h
      · rcases pollHealthCounters_events st d now _ h with ⟨n, s, h⟩ | h | h | h | h <;>
          exact Event.noConfusion h
      · exact Event.noConfusion h
      · rcases pollAccept_events _ d now _ h with
          ⟨i, h⟩ | h | ⟨c1, t1, h⟩ | ⟨a1, b1, h⟩ | ⟨t1, h⟩ | ⟨u1, h⟩ | ⟨s1, h⟩ | h | h | h | h | h | h <;>
          exact Event.noConfusion h
    · intro hpos
      rw [hmain]
      exact pollAccept_lastSequence _ d now seq hseq (by simp) hpos
  · intro st d now hseq hne
    obtain ⟨f1, f2, f3, f4, f5, f6, f7, f8, f9, f10, f11, f12, f13⟩ :=
      pollHealthCounters_frame st d now
    have hmain : pollStatus st (some d) now
        = { st := (pollHealthCounters st d now).1,
            events := Event.statusUpdate :: (pollHealthCounters st d now).2
              ++ [Event.logStaleLegacy],
            rescheduled := false } := by
      simp [pollStatus, hseq, f1, hne]
    rw [hmain]
    exact ⟨rfl, f1, f3, f2, f4, f5, f6⟩

/-- Witness for C1 (amended): a concrete stale record (sequence 2 after
baseline 3) is dropped with exactly the status broadcast, the error-block
events and the stale diagnostic. -/
theorem pollStatus_stale_sequence_handling_witness :
    pollStatus {initialSupState with lastSequence := 3} (some
        { sequence := some 2, service_instance_id := none, capture_count := some 1,
          window_title := "w", capture_backend := some "mss", error := none,
          duplicate := false, last_capture_utc := none }) 777
      = { st := (pollHealthCounters {initialSupState with lastSequence := 3}
            { sequence := some 2, service_instance_id := none, capture_count := some 1,
              window_title := "w", capture_backend := some "mss", error := none,
              duplicate := false, last_capture_utc := none } 777).1,
          events := Event.statusUpdate :: (pollHealthCounters
              {initialSupState with lastSequence := 3}
              { sequence := some 2, service_instance_id := none, capture_count := some 1,
                window_title := "w", capture_backend := some "mss", error := none,
                duplicate := false, last_capture_utc := none } 777).2
            ++ [Event.logStaleSeq 2 3],
          rescheduled := false } :=
  (pollStatus_stale_sequence_handling.1 {initialSupState with lastSequence := 3}
      { sequence := some 2, service_instance_id := none, capture_count := some 1,
        window_title := "w", capture_backend := some "mss", error := none,
        duplicate := false, last_capture_utc := none } 777 2 rfl
      (fun _ _ h1 _ => Option.noConfusion h1) (by decide) (by decide)).1

/-- Counterexample to claim C4 as stated: three consecutive accepted
duplicate records for the same window title with no capture-count change
produce three separate duplicate log lines, not one aggregated entry — no
coalescing by count or time window exists anywhere on the logging path
(each `broadcast('log:line', ...)` appends one line). -/
theorem pollStatus_three_duplicates_three_logs :
    ((pollStatus
          {initialSupState with
            lastSequence := 3, lastServiceInstance := some "A",
            lastInstanceId := some "A", lastLoggedCaptureCount := 7}
          (some { sequence := some 4, service_instance_id := some "A",
                  capture_count := some 7, window_title := "w",
                  capture_backend := some "mss", error := none,
                  duplicate := true, last_capture_utc := none }) 1000).events
        ++ (pollStatus
            (pollStatus
              {initialSupState with
                lastSequence := 3, lastServiceInstance := some "A",
                lastInstanceId := some "A", lastLoggedCaptureCount := 7}
              (some { sequence := some 4, service_instance_id := some "A",
                      capture_count := some 7, window_title := "w",
                      capture_backend := some "mss", error := none,
                      duplicate := true, last_capture_utc := none }) 1000).st
            (some { sequence := some 5, service_instance_id := some "A",
                    capture_count := some 7, window_title := "w",
                    capture_backend := some "mss", error := none,
                    duplicate := true, last_capture_utc := none }) 3000).events
        ++ (pollStatus
            (pollStatus
              (pollStatus
                {initialSupState with
                  lastSequence := 3, lastServiceInstance := some "A",
                  lastInstanceId := some "A", lastLoggedCaptureCount := 7}
                (some { sequence := some 4, service_instance_id := some "A",
                        capture_count := some 7, window_title := "w",
                        capture_backend := some "mss", error := none,
                        duplicate := true, last_capture_utc := none }) 1000).st
              (some { sequence := some 5, service_instance_id := some "A",
                      capture_count := some 7, window_title := "w",
                      capture_backend := some "mss", error := none,
                      duplicate := true, last_capture_utc := none }) 3000).st
            (some { sequence := some 6, service_instance_id := some "A",
                    capture_count := some 7, window_title := "w",
                    capture_backend := some "mss", error := none,
                    duplicate := true, last_capture_utc := none }) 5000).events).count
      (Event.logDuplicate "w") = 3
    ∧ (3 : Nat) ≠ 1 := by
  decide

/-- Claim C4 (amended): the supervisor emits exactly one duplicate log
line per accepted duplicate record (when the capture count is not a
changed number), with no coalescing — so three consecutive duplicate
records yield three lines, one each. -/
theorem pollStatus_duplicate_log_per_record (st : SupState) (d : StatusData)
    (now seq : Int) (sid : String)
    (hseq : d.sequence = some seq)
    (hsid : d.service_instance_id = some sid)
    (hlsi : st.lastServiceInstance = some sid)
    (hiid : st.lastInstanceId = some sid)
    (hacc : ¬(st.lastSequence ≠ -1 ∧ seq < st.lastSequence))
    (hdup : d.duplicate = true)
    (hcc : d.capture_count = some st.lastLoggedCaptureCount) :
    ((pollStatus st (some d) now).events).count (Event.logDuplicate d.window_title)
      = 1 := by
  obtain ⟨f1, f2, f3, f4, f5, f6, f7, f8, f9, f10, f11, f12, f13⟩ :=
    pollHealthCounters_frame st d now
  have hni : newInstanceStep (pollHealthCounters st d now).1 d
      = ((pollHealthCounters st d now).1, []) := by
    simp [newInstanceStep, hsid, f3, hiid]
  have hcl : captureLogStep (pollHealthCounters st d now).1 d
      = ((pollHealthCounters st d now).1, [Event.logDuplicate d.window_title]) := by
    simp [captureLogStep, hcc, f4, hdup]
  have hcount : ((pollAccept (pollHealthCounters st d now).1 d now).2).count
      (Event.logDuplicate d.window_title) = 1 := by
    simp only [pollAccept, hni, hcl]
    rw [List.count_append, List.count_append, List.count_append, List.count_append,
      List.count_append]
    have z3 : (legacyOverwriteStep
        (seqAdvanceStep (pollHealthCounters st d now).1 d now) d).count
        (Event.logDuplicate d.window_title) = 0 :=
      List.count_eq_zero.mpr (fun hm => by
        rcases legacyOverwriteStep_events _ _ _ hm with ⟨u, hx⟩ | hx <;>
          exact Event.noConfusion hx)
    have z5 : ((errChangeStep (utcStep
        (seqAdvanceStep (pollHealthCounters st d now).1 d now) d) d).2).count
        (Event.logDuplicate d.window_title) = 0 :=
      List.count_eq_zero.mpr (fun hm => by
        rcases errChangeStep_events _ _ _ hm with ⟨s, hx⟩ | hx <;>
          exact Event.noConfusion hx)
    have z6 : ((heartbeatStep (errChangeStep (utcStep
        (seqAdvanceStep (pollHealthCounters st d now).1 d now) d) d).1 now).2).count
        (Event.logDuplicate d.window_title) = 0 :=
      List.count_eq_zero.mpr (fun hm => by
        exact Event.noConfusion (heartbeatStep_events _ _ _ hm))
    have z7 : ((healthRestartStep (heartbeatStep (errChangeStep (utcStep
        (seqAdvanceStep (pollHealthCounters st d now).1 d now) d) d).1 now).1 now).2).count
        (Event.logDuplicate d.window_title) = 0 :=
      List.count_eq_zero.mpr (fun hm => by
        rcases healthRestartStep_events _ _ _ hm with hx | hx | hx | hx <;>
          exact Event.noConfusion hx)
    simp [z3, z5, z6, z7]
  have hz : ((pollHealthCounters st d now).2).count (Event.logDuplicate d.window_title)
      = 0 :=
    List.count_eq_zero.mpr (fun hm => by
      rcases pollHealthCounters_events st d now _ hm with ⟨n, s, hx⟩ | hx | hx | hx | hx <;>
        exact Event.noConfusion hx)
  simp only [pollStatus, hseq, f2]
  simp only [hsid, hlsi, if_neg (show ¬(sid ≠ sid) by simp)]
  rw [if_neg (by rw [f1]; exact hacc)]
  simp [List.count_append, hz, hcount]

/-- Witness for C4 (amended): a concrete accepted duplicate record yields
exactly one duplicate log line. -/
theorem pollStatus_duplicate_log_per_record_witness :
    ((pollStatus
        {initialSupState with
          lastSequence := 3, lastServiceInstance := some "A",
          lastInstanceId := some "A", lastLoggedCaptureCount := 7}
        (some { sequence := some 4, service_instance_id := some "A",
                capture_count := some 7, window_title := "w",
                capture_backend := some "mss", error := none,
                duplicate := true, last_capture_utc := none }) 1000).events).count
      (Event.logDuplicate "w") = 1 :=
  pollStatus_duplicate_log_per_record
    {initialSupState with
      lastSequence := 3, lastServiceInstance := some "A",
      lastInstanceId := some "A", lastLoggedCaptureCount := 7}
    { sequence := some 4, service_instance_id := some "A",
      capture_count := some 7, window_title := "w",
      capture_backend := some "mss", error := none,
      duplicate := true, last_capture_utc := none }
    1000 4 "A" rfl rfl rfl rfl (by decide) rfl rfl

/-- On the accepted path, a health-restart trigger can only come from the
final restart block, whose guard is evaluated on a state whose relevant
fields the intermediate steps preserve. -/
theorem pollAccept_health_restart_only_when (st : SupState) (d : StatusData)
    (now : Int) (h : Event.logHealthRestart ∈ (pollAccept st d now).2) :
    st.userRequestedStop = false ∧ st.systemPaused = false
    ∧ now - st.lastHealthRestart > 15000
    ∧ st.consecutiveDisplayErrors ≥ (if st.lastSuccessfulStatus = 0 then 1 else 3)
    ∧ (pollAccept st d now).1.consecutiveDisplayErrors = 0 := by
  have hstop1 := (newInstanceStep_frame st d).2.1
  have hstop2 := (captureLogStep_frame (newInstanceStep st d).1 d).2.1
  have hstop3 := (seqAdvanceStep_frame (captureLogStep (newInstanceStep st d).1 d).1 d now).2.1
  have hstop4 := (utcStep_frame (seqAdvanceStep (captureLogStep (newInstanceStep st d).1 d).1 d now) d).2.1
  have hstop5 := (errChangeStep_frame (utcStep (seqAdvanceStep (captureLogStep (newInstanceStep st d).1 d).1 d now) d) d).2.1
  have hstop6 := (heartbeatStep_frame (errChangeStep (utcStep (seqAdvanceStep (captureLogStep (newInstanceStep st d).1 d).1 d now) d) d).1 now).2.1
  have hcde1 := (newInstanceStep_frame st d).1
  have hcde2 := (captureLogStep_frame (newInstanceStep st d).1 d).1
  have hcde3 := (seqAdvanceStep_frame (captureLogStep (newInstanceStep st d).1 d).1 d now).1
  have hcde4 := (utcStep_frame (seqAdvanceStep (captureLogStep (newInstanceStep st d).1 d).1 d now) d).1
  have hcde5 := (errChangeStep_frame (utcStep (seqAdvanceStep (captureLogStep (newInstanceStep st d).1 d).1 d now) d) d).1
  have hcde6 := (heartbeatStep_frame (errChangeStep (utcStep (seqAdvanceStep (captureLogStep (newInstanceStep st d).1 d).1 d now) d) d).1 now).1
  have hps1 := (newInstanceStep_frame st d).2.2.1
  have hps2 := (captureLogStep_frame (newInstanceStep st d).1 d).2.2.1
  have hps3 := (seqAdvanceStep_frame (captureLogStep (newInstanceStep st d).1 d).1 d now).2.2.1
  have hps4 := (utcStep_frame (seqAdvanceStep (captureLogStep (newInstanceStep st d).1 d).1 d now) d).2.2.1
  have hps5 := (errChangeStep_frame (utcStep (seqAdvanceStep (captureLogStep (newInstanceStep st d).1 d).1 d now) d) d).2.2.1
  have hps6 := (heartbeatStep_frame (errChangeStep (utcStep (seqAdvanceStep (captureLogStep (newInstanceStep st d).1 d).1 d now) d) d).1 now).2.2.1
  have hlhr1 := (newInstanceStep_frame st d).2.2.2.1
  have hlhr2 := (captureLogStep_frame (newInstanceStep st d).1 d).2.2.2.1
  have hlhr3 := (seqAdvanceStep_frame (captureLogStep (newInstanceStep st d).1 d).1 d now).2.2.2.1
  have hlhr4 := (utcStep_frame (seqAdvanceStep (captureLogStep (newInstanceStep st d).1 d).1 d now) d).2.2.2.1
  have hlhr5 := (errChangeStep_frame (utcStep (seqAdvanceStep (captureLogStep (newInstanceStep st d).1 d).1 d now) d) d).2.2.2.1
  have hlhr6 := (heartbeatStep_frame (errChangeStep (utcStep (seqAdvanceStep (captureLogStep (newInstanceStep st d).1 d).1 d now) d) d).1 now).2.2.2.1
  have hlss1 := (newInstanceStep_frame st d).2.2.2.2.1
  have hlss2 := (captureLogStep_frame (newInstanceStep st d).1 d).2.2.2.2.1
  have hlss3 := (seqAdvanceStep_frame (captureLogStep (newInstanceStep st d).1 d).1 d now).2.2.2.2.1
  have hlss4 := (utcStep_frame (seqAdvanceStep (captureLogStep (newInstanceStep st d).1 d).1 d now) d).2.2.2.2.1
  have hlss5 := (errChangeStep_frame (utcStep (seqAdvanceStep (captureLogStep (newInstanceStep st d).1 d).1 d now) d) d).2.2.2.2.1
  have hlss6 := (heartbeatStep_frame (errChangeStep (utcStep (seqAdvanceStep (captureLogStep (newInstanceStep st d).1 d).1 d now) d) d).1 now).2.2.2.2.1
  simp only [pollAccept, List.mem_append] at h
  rcases h with ((((h | h) | h) | h) | h) | h
  · rcases newInstanceStep_events _ _ _ h with ⟨i, hx⟩ | hx <;> exact Event.noConfusion hx
  · rcases captureLogStep_events _ _ _ h with ⟨a, b, hx⟩ | ⟨a, b, hx⟩ | ⟨t, hx⟩ <;>
      exact Event.noConfusion hx
  · rcases legacyOverwriteStep_events _ _ _ h with ⟨u, hx⟩ | hx <;> exact Event.noConfusion hx
  · rcases errChangeStep_events _ _ _ h with ⟨s, hx⟩ | hx <;> exact Event.noConfusion hx
  · exact Event.noConfusion (heartbeatStep_events _ _ _ h)
  · have hspec := (healthRestartStep_spec (heartbeatStep (errChangeStep (utcStep
      (seqAdvanceStep (captureLogStep (newInstanceStep st d).1 d).1 d now) d) d).1 now).1 now).1.mp h
    have hreset := (healthRestartStep_spec (heartbeatStep (errChangeStep (utcStep
      (seqAdvanceStep (captureLogStep (newInstanceStep st d).1 d).1 d now) d) d).1 now).1 now).2.1 h
    obtain ⟨c1, c2, c3, c4⟩ := hspec
    rw [hstop6, hstop5, hstop4, hstop3, hstop2, hstop1] at c1
    rw [hps6, hps5, hps4, hps3, hps2, hps1] at c2
    rw [hcde6, hcde5, hcde4, hcde3, hcde2, hcde1,
      hlss6, hlss5, hlss4, hlss3, hlss2, hlss1] at c3
    rw [hlhr6, hlhr5, hlhr4, hlhr3, hlhr2, hlhr1] at c4
    refine ⟨c1, c2, c4, c3, ?_⟩
    simpa only [pollAccept] using hreset

/-- Claim C6: a poll triggers the display-error stop-plus-scheduled-
restart only when the display-error count after ingesting the record
reaches the threshold — 1 while no error-free status has ever been
observed (`lastSuccessfulStatus` still 0), 3 afterward — and only when no
user stop and no system pause are in effect and at least 15 seconds have
elapsed since the previous health restart; on triggering, the counter is
reset to 0. -/
theorem pollStatus_health_restart_only_when (st : SupState) (d : StatusData)
    (now : Int) (h : Event.logHealthRestart ∈ (pollStatus st (some d) now).events) :
    st.userRequestedStop = false ∧ st.systemPaused = false
    ∧ 15000 ≤ now - st.lastHealthRestart
    ∧ cdeAfter st d ≥ (if lssAfter st d now = 0 then 1 else 3)
    ∧ (pollStatus st (some d) now).st.consecutiveDisplayErrors = 0 := by
  obtain ⟨f1, f2, f3, f4, f5, f6, f7, f8, f9, f10, f11, f12, f13⟩ :=
    pollHealthCounters_frame st d now
  obtain ⟨g1, g2⟩ := pollHealthCounters_counters st d now
  have hnothc : Event.logHealthRestart ∉ (pollHealthCounters st d now).2 := fun hm => by
    rcases pollHealthCounters_events st d now _ hm with ⟨n, s, hx⟩ | hx | hx | hx | hx <;>
      exact Event.noConfusion hx
  have hA : Event.logHealthRestart ∈ (pollAccept (pollHealthCounters st d now).1 d now).2 →
      st.userRequestedStop = false ∧ st.systemPaused = false
      ∧ 15000 ≤ now - st.lastHealthRestart
      ∧ cdeAfter st d ≥ (if lssAfter st d now = 0 then 1 else 3)
      ∧ (pollAccept (pollHealthCounters st d now).1 d now).1.consecutiveDisplayErrors
          = 0 := by
    intro hx
    obtain ⟨c1, c2, c3, c4, c5⟩ := pollAccept_health_restart_only_when _ d now hx
    rw [f8] at c1; rw [f9] at c2; rw [f10] at c3; rw [g1, g2] at c4
    exact ⟨c1, c2, by omega, c4, c5⟩
  have hB : Event.logHealthRestart ∈ (pollAccept
        {(pollHealthCounters st d now).1 with lastSequence := -1} d now).2 →
      st.userRequestedStop = false ∧ st.systemPaused = false
      ∧ 15000 ≤ now - st.lastHealthRestart
      ∧ cdeAfter st d ≥ (if lssAfter st d now = 0 then 1 else 3)
      ∧ (pollAccept {(pollHealthCounters st d now).1 with lastSequence := -1}
          d now).1.consecutiveDisplayErrors = 0 := by
    intro hx
    obtain ⟨c1, c2, c3, c4, c5⟩ := pollAccept_health_restart_only_when _ d now hx
    simp only [] at c1 c2 c3 c4
    rw [f8] at c1; rw [f9] at c2; rw [f10] at c3; rw [g1, g2] at c4
    exact ⟨c1, c2, by omega, c4, c5⟩
  rcases hseq : d.sequence with _ | seq
  · by_cases hbase : (pollHealthCounters st d now).1.lastSequence = -1
    · have hmain : pollStatus st (some d) now
          = { st := (pollAccept (pollHealthCounters st d now).1 d now).1,
              events := (Event.statusUpdate :: (pollHealthCounters st d now).2)
                ++ (pollAccept (pollHealthCounters st d now).1 d now).2,
              rescheduled := true } := by
        simp [pollStatus, hseq, hbase]
      rw [hmain] at h
      simp only [List.cons_append, List.mem_cons, List.mem_append] at h
      rcases h with hx | hx | hx
      · exact Event.noConfusion hx
      · exact absurd hx hnothc
      · rw [hmain]; exact hA hx
    · have hmain : pollStatus st (some d) now
          = { st := (pollHealthCounters st d now).1,
              events := (Event.statusUpdate :: (pollHealthCounters st d now).2)
                ++ [Event.logStaleLegacy],
              rescheduled := false } := by
        simp [pollStatus, hseq, hbase]
      rw [hmain] at h
      simp only [List.cons_append, List.mem_cons, List.mem_append,
        List.not_mem_nil, or_false] at h
      rcases h with hx | hx | hx
      · exact Event.noConfusion hx
      · exact absurd hx hnothc
      · exact Event.noConfusion hx
  · rcases hsid : d.service_instance_id with _ | sid <;>
      rcases hlsi : st.lastServiceInstance with _ | lsi
    · by_cases hst : (pollHealthCounters st d now).1.lastSequence ≠ -1
          ∧ seq < (pollHealthCounters st d now).1.lastSequence
      · have hmain : pollStatus st (some d) now
            = { st := (pollHealthCounters st d now).1,
                events := (Event.statusUpdate :: (pollHealthCounters st d now).2)
                  ++ [Event.logStaleSeq seq (pollHealthCounters st d now).1.lastSequence],
                rescheduled := false } := by
          simp only [pollStatus, hseq, f2]
          simp [hsid, hlsi, hst]
        rw [hmain] at h
        simp only [List.cons_append, List.mem_cons, List.mem_append,
          List.not_mem_nil, or_false] at h
        rcases h with hx | hx | hx
        · exact Event.noConfusion hx
        · exact absurd hx hnothc
        · exact Event.noConfusion hx
      · have hmain : pollStatus st (some d) now
            = { st := (pollAccept (pollHealthCounters st d now).1 d now).1,
                events := (Event.statusUpdate :: (pollHealthCounters st d now).2)
                  ++ (pollAccept (pollHealthCounters st d now).1 d now).2,
                rescheduled := true } := by
          simp only [pollStatus, hseq, f2]
          simp [hsid, hlsi, hst]
        rw [hmain] at h
        simp only [List.cons_append, List.mem_cons, List.mem_append] at h
        rcases h with hx | hx | hx
        · exact Event.noConfusion hx
        · exact absurd hx hnothc
        · rw [hmain]; exact hA hx
    · by_cases hst : (pollHealthCounters st d now).1.lastSequence ≠ -1
          ∧ seq < (pollHealthCounters st d now).1.lastSequence
      · have hmain : pollStatus st (some d) now
            = { st := (pollHealthCounters st d now).1,
                events := (Event.statusUpdate :: (pollHealthCounters st d now).2)
                  ++ [Event.logStaleSeq seq (pollHealthCounters st d now).1.lastSequence],
                rescheduled := false } := by
          simp only [pollStatus, hseq, f2]
          simp [hsid, hlsi, hst]
        rw [hmain] at h
        simp only [List.cons_append, List.mem_cons, List.mem_append,
          List.not_mem_nil, or_false] at h
        rcases h with hx | hx | hx
        · exact Event.noConfusion hx
        · exact absurd hx hnothc
        · exact Event.noConfusion hx
      · have hmain : pollStatus st (some d) now
            = { st := (pollAccept (pollHealthCounters st d now).1 d now).1,
                events := (Event.statusUpdate :: (pollHealthCounters st d now).2)
                  ++ (pollAccept (pollHealthCounters st d now).1 d now).2,
                rescheduled := true } := by
          simp only [pollStatus, hseq, f2]
          simp [hsid, hlsi, hst]
        rw [hmain] at h
        simp only [List.cons_append, List.mem_cons, List.mem_append] at h
        rcases h with hx | hx | hx
        · exact Event.noConfusion hx
        · exact absurd hx hnothc
        · rw [hmain]; exact hA hx
    · by_cases hst : (pollHealthCounters st d now).1.lastSequence ≠ -1
          ∧ seq < (pollHealthCounters st d now).1.lastSequence
      · have hmain : pollStatus st (some d) now
            = { st := (pollHealthCounters st d now).1,
                events := (Event.statusUpdate :: (pollHealthCounters st d now).2)
                  ++ [Event.logStaleSeq seq (pollHealthCounters st d now).1.lastSequence],
                rescheduled := false } := by
          simp only [pollStatus, hseq, f2]
          simp [hsid, hlsi, hst]
        rw [hmain] at h
        simp only [List.cons_append, List.mem_cons, List.mem_append,
          List.not_mem_nil, or_false] at h
        rcases h with hx | hx | hx
        · exact Event.noConfusion hx
        · exact absurd hx hnothc
        · exact Event.noConfusion hx
      · have hmain : pollStatus st (some d) now
            = { st := (pollAccept (pollHealthCounters st d now).1 d now).1,
                events := (Event.statusUpdate :: (pollHealthCounters st d now).2)
                  ++ (pollAccept (pollHealthCounters st d now).1 d now).2,
                rescheduled := true } := by
          simp only [pollStatus, hseq, f2]
          simp [hsid, hlsi, hst]
        rw [hmain] at h
        simp only [List.cons_append, List.mem_cons, List.mem_append] at h
        rcases h with hx | hx | hx
        · exact Event.noConfusion hx
        · exact absurd hx hnothc
        · rw [hmain]; exact hA hx
    · by_cases hdiff : sid ≠ lsi
      · have hmain : pollStatus st (some d) now
            = { st := (pollAccept
                  {(pollHealthCounters st d now).1 with lastSequence := -1} d now).1,
                events := (Event.statusUpdate :: (pollHealthCounters st d now).2)
                  ++ [Event.logBaselineReset sid]
                  ++ (pollAccept {(pollHealthCounters st d now).1 with
                      lastSequence := -1} d now).2,
                rescheduled := true } := by
          simp only [pollStatus, hseq, f2]
          simp [hsid, hlsi, hdiff]
        rw [hmain] at h
        simp only [List.cons_append, List.append_assoc, List.mem_cons, List.mem_append,
          List.not_mem_nil, or_false, false_or] at h
        rcases h with hx | hx | hx | hx
        · exact Event.noConfusion hx
        · exact absurd hx hnothc
        · exact Event.noConfusion hx
        · rw [hmain]; exact hB hx
      · by_cases hst : (pollHealthCounters st d now).1.lastSequence ≠ -1
            ∧ seq < (pollHealthCounters st d now).1.lastSequence
        · have hmain : pollStatus st (some d) now
              = { st := (pollHealthCounters st d now).1,
                  events := (Event.statusUpdate :: (pollHealthCounters st d now).2)
                    ++ [Event.logStaleSeq seq (pollHealthCounters st d now).1.lastSequence],
                  rescheduled := false } := by
            simp only [pollStatus, hseq, f2]
            simp [hsid, hlsi, hdiff, hst]
          rw [hmain] at h
          simp only [List.cons_append, List.mem_cons, List.mem_append,
            List.not_mem_nil, or_false] at h
          rcases h with hx | hx | hx
          · exact Event.noConfusion hx
          · exact absurd hx hnothc
          · exact Event.noConfusion hx
        · have hmain : pollStatus st (some d) now
              = { st := (pollAccept (pollHealthCounters st d now).1 d now).1,
                  events := (Event.statusUpdate :: (pollHealthCounters st d now).2)
                    ++ (pollAccept (pollHealthCounters st d now).1 d now).2,
                  rescheduled := true } := by
            simp only [pollStatus, hseq, f2]
            simp [hsid, hlsi, hdiff, hst]
          rw [hmain] at h
          simp only [List.cons_append, List.mem_cons, List.mem_append] at h
          rcases h with hx | hx | hx
          · exact Event.noConfusion hx
          · exact absurd hx hnothc
          · rw [hmain]; exact hA hx

/-- Witness for C6: a concrete poll that does trigger — third consecutive
display error after a success, cooldown elapsed — satisfies the theorem's
hypothesis and all its conclusions. -/
theorem pollStatus_health_restart_only_when_witness :
    ({initialSupState with
        consecutiveDisplayErrors := 2, lastSuccessfulStatus := 1} : SupState).userRequestedStop
      = false
    ∧ (pollStatus {initialSupState with
          consecutiveDisplayErrors := 2, lastSuccessfulStatus := 1}
        (some { sequence := some 1, service_instance_id := some "A",
                capture_count := none, window_title := "w",
                capture_backend := some "mss",
                error := some "Unable to open DISPLAY :0", duplicate := false,
                last_capture_utc := none }) 20000).st.consecutiveDisplayErrors = 0 :=
  ⟨(pollStatus_health_restart_only_when
      {initialSupState with consecutiveDisplayErrors := 2, lastSuccessfulStatus := 1}
      { sequence := some 1, service_instance_id := some "A",
        capture_count := none, window_title := "w",
        capture_backend := some "mss",
        error := some "Unable to open DISPLAY :0", duplicate := false,
        last_capture_utc := none } 20000 (by decide)).1,
   (pollStatus_health_restart_only_when
      {initialSupState with consecutiveDisplayErrors := 2, lastSuccessfulStatus := 1}
      { sequence := some 1, service_instance_id := some "A",
        capture_count := none, window_title := "w",
        capture_backend := some "mss",
        error := some "Unable to open DISPLAY :0", duplicate := false,
        last_capture_utc := none } 20000 (by decide)).2.2.2.2⟩

/-- `scanGroup` splits off a `]`-free run followed by the first `]`. -/
theorem scanGroup_append (g rest : List Char) (hg : ']' ∉ g) :
    scanGroup (g ++ ']' :: rest) = some (g, rest) := by
  induction g with
  | nil => simp [scanGroup]
  | cons a as ih =>
    have ha : a ≠ ']' := fun hcon => hg (by simp [hcon])
    have hg2 : ']' ∉ as := fun hcon => hg (by simp [hcon])
    simp [scanGroup, ha, ih hg2]

/-- Any line whose leading bracket group starts with a non-uppercase,
non-`]` character gets a level token spliced in right after that group —
and the result still has the same leading bracket group. -/
theorem transformLine_tags (c : Char) (ts r : List Char)
    (h1 : isUpperAZ c = false) (h2 : c ≠ ']') (h3 : ']' ∉ ts) :
    transformLine ('[' :: c :: (ts ++ ']' :: r))
      = '[' :: c :: (ts ++ ']' :: ' ' :: '['
          :: (lineLevel ('[' :: c :: (ts ++ ']' :: r)) ++ ']' :: r)) := by
  have hblank : lineIsBlank ('[' :: c :: (ts ++ ']' :: r)) = false := by
    simp [lineIsBlank, List.all_cons, show wsB '[' = false from rfl]
  have htok : levelTokenTest ('[' :: c :: (ts ++ ']' :: r)) = false := by
    simp only [levelTokenTest]
    rw [List.dropWhile_cons]
    simp [show wsB '[' = false from rfl, h1]
  have hnotin : ']' ∉ c :: ts := by
    intro hm
    rcases List.mem_cons.mp hm with hEq | hm2
    · exact h2 hEq.symm
    · exact h3 hm2
  have hscan : scanGroup (c :: ts ++ ']' :: r) = some (c :: ts, r) :=
    scanGroup_append (c :: ts) r hnotin
  simp only [transformLine, hblank, htok, Bool.false_eq_true, if_false]
  simp only [replaceLeading]
  rw [show (c :: (ts ++ ']' :: r)) = (c :: ts ++ ']' :: r) from rfl, hscan]
  simp

/-- Claim C10 (amended): `levelizeExistingFrontendLog` is not idempotent:
every nonblank line whose leading bracket group opens with a character
that is neither uppercase nor `]` — in particular every line opening with
a bracketed timestamp — fails the already-tagged test again after being
tagged (the inserted level token sits after the timestamp bracket, which
still contains non-uppercase characters), so a second pass splices in a
second level token and changes the line again. -/
theorem levelize_line_not_idempotent (c : Char) (ts rest : List Char)
    (h1 : isUpperAZ c = false) (h2 : c ≠ ']') (h3 : ']' ∉ ts) :
    transformLine (transformLine ('[' :: c :: (ts ++ ']' :: rest)))
      ≠ transformLine ('[' :: c :: (ts ++ ']' :: rest)) := by
  rw [transformLine_tags c ts rest h1 h2 h3]
  rw [transformLine_tags c ts
    (' ' :: '[' :: (lineLevel ('[' :: c :: (ts ++ ']' :: rest)) ++ ']' :: rest)) h1 h2 h3]
  intro heq
  have hlen := congrArg List.length heq
  simp [List.length_append] at hlen
  omega

/-- Witness for C10 (amended): the concrete line with a bracketed numeric
timestamp is changed again by the second pass. -/
theorem levelize_line_not_idempotent_witness :
    transformLine (transformLine ('[' :: '2' :: ("025".toList ++ ']' :: " x".toList)))
      ≠ transformLine ('[' :: '2' :: ("025".toList ++ ']' :: " x".toList)) :=
  levelize_line_not_idempotent '2' "025".toList " x".toList
    (by decide) (by decide) (by decide)

/-- Counterexample to claim C10 as stated: applying the log-file
transformation twice to a concrete legacy log line does not equal applying
it once — the second pass inserts a second level token after the
timestamp bracket. -/
theorem levelize_twice_differs :
    levelizeExistingFrontendLog (levelizeExistingFrontendLog
        "[2025-01-01T00:00:00] [capture] saved frame".toList)
      ≠ levelizeExistingFrontendLog
        "[2025-01-01T00:00:00] [capture] saved frame".toList := by
  decide

end Hindsight
